import Mathlib

/-!
Shallow embedding of the documentation-site feature-table component
(`FeatureTables.js`): the static `FEATURE_TABLES` registry, the
`toTable` rendering helper, the exported `CategoryTable`, `ItemTable`
and `IndexTable` components, the `truncate` helper and the
`DEPRECATED_DOC_IDS` deny-list.

JS strings are modelled by Lean `String` (a sequence of characters);
rendered JSX output is modelled by the inductive `Node`; a JS `throw`
is modelled by `Except.error`.
-/

namespace FeatureTables

/-- Rendered HTML/JSX content: plain text, an `<a href=..>..</a>` anchor,
or a JSX fragment `<>..</>` concatenating two children (both fragments
occurring in the source data have exactly two children). -/
inductive Node where
  | text (s : String)
  | anchor (href : String) (child : Node)
  | seq (a b : Node)
deriving DecidableEq, Repr

/-- A field value of an item record in `FEATURE_TABLES`: the source data
holds strings, booleans, and (in two items) JSX fragments. -/
inductive FieldVal where
  | s (v : String)
  | b (v : Bool)
  | node (v : Node)
deriving DecidableEq, Repr

/-- An item record: a JS object literal, i.e. an ordered list of
field-name/value pairs. -/
abbrev Item := List (String × FieldVal)

/-- JS property read `item.k` when the formatter uses it as a string
(absent or non-string fields read as `undefined`, modelled `none`). -/
def Item.getStr? (it : Item) (k : String) : Option String :=
  match it.lookup k with
  | some (.s v) => some v
  | _ => none

/-- JS property read `item.k` interpolated into JSX as a string;
`undefined` renders as nothing, modelled by the empty string. -/
def Item.getStr (it : Item) (k : String) : String :=
  (it.getStr? k).getD ""

/-- JS truthiness test `item.k ? _ : _` on a boolean field: an absent
field is `undefined`, which is falsy. -/
def Item.getBool (it : Item) (k : String) : Bool :=
  match it.lookup k with
  | some (.b v) => v
  | _ => false

/-- JS property read `item.k` used directly as cell content
(a string or a JSX fragment in the source data). -/
def Item.getRaw (it : Item) (k : String) : Node :=
  match it.lookup k with
  | some (.s v) => .text v
  | some (.node v) => v
  | some (.b v) => .text (toString v)
  | none => .text ""

/-- A column descriptor `{title, formatter}`: a displayable title and a
formatter from a row value to displayable cell content. -/
structure Column (α : Type) where
  title : Node
  formatter : α → Node

/-- One category of `FEATURE_TABLES`: `{link, columns, items}`. -/
structure Category where
  link : String
  columns : List (Column Item)
  items : List Item

/-- The rendered `<table>`: the `<thead>` row of header cells and the
`<tbody>` rows of `<td>` cells. -/
structure Table where
  header : List Node
  body : List (List Node)
deriving DecidableEq, Repr

/-- `toTable(columns, items)`: header cells are the column titles in
order; each item yields one body row whose cells are the formatters
applied to that item, in column order. -/
def toTable {α : Type} (columns : List (Column α)) (items : List α) : Table :=
  { header := columns.map (fun col => col.title),
    body := items.map (fun item => columns.map (fun col => col.formatter item)) }
def cat_chat : Category := {
  link := "/docs/integrations/chat",
  columns := [
    ⟨Node.text "Provider",
      fun item => Node.anchor (item.getStr "link") (Node.text (item.getStr "name"))⟩,
    ⟨Node.anchor "/docs/how_to/tool_calling" (Node.text "Tool calling"),
      fun item => Node.text (if item.getBool "tool_calling" then "✅" else "❌")⟩,
    ⟨Node.anchor "/docs/how_to/structured_output/" (Node.text "Structured output"),
      fun item => Node.text (if item.getBool "structured_output" then "✅" else "❌")⟩,
    ⟨Node.text "JSON mode",
      fun item => Node.text (if item.getBool "json_mode" then "✅" else "❌")⟩,
    ⟨Node.text "Local",
      fun item => Node.text (if item.getBool "local" then "✅" else "❌")⟩,
    ⟨Node.anchor "/docs/how_to/multimodal_inputs/" (Node.text "Multimodal"),
      fun item => Node.text (if item.getBool "multimodal" then "✅" else "❌")⟩,
    ⟨Node.text "Package",
      fun item => Node.anchor (item.getStr "apiLink") (Node.text (item.getStr "package"))⟩],
  items := [
    [("name", FieldVal.s "ChatAnthropic"),
      ("package", FieldVal.s "langchain-anthropic"),
      ("link", FieldVal.s "anthropic/"),
      ("structured_output", FieldVal.b true),
      ("tool_calling", FieldVal.b true),
      ("json_mode", FieldVal.b false),
      ("multimodal", FieldVal.b true),
      ("local", FieldVal.b false),
      ("apiLink", FieldVal.s "https://api.python.langchain.com/en/latest/chat_models/langchain_anthropic.chat_models.ChatAnthropic.html#langchain_anthropic.chat_models.ChatAnthropic")],
    [("name", FieldVal.s "ChatMistralAI"),
      ("package", FieldVal.s "langchain-mistralai"),
      ("link", FieldVal.s "mistralai/"),
      ("structured_output", FieldVal.b true),
      ("tool_calling", FieldVal.b true),
      ("json_mode", FieldVal.b false),
      ("multimodal", FieldVal.b false),
      ("local", FieldVal.b false),
      ("apiLink", FieldVal.s "https://api.python.langchain.com/en/latest/chat_models/langchain_mistralai.chat_models.ChatMistralAI.html#langchain_mistralai.chat_models.ChatMistralAI")],
    [("name", FieldVal.s "ChatFireworks"),
      ("package", FieldVal.s "langchain-fireworks"),
      ("link", FieldVal.s "fireworks/"),
      ("structured_output", FieldVal.b true),
      ("tool_calling", FieldVal.b true),
      ("json_mode", FieldVal.b true),
      ("multimodal", FieldVal.b false),
      ("local", FieldVal.b false),
      ("apiLink", FieldVal.s "https://api.python.langchain.com/en/latest/chat_models/langchain_fireworks.chat_models.ChatFireworks.html#langchain_fireworks.chat_models.ChatFireworks")],
    [("name", FieldVal.s "AzureChatOpenAI"),
      ("package", FieldVal.s "langchain-openai"),
      ("link", FieldVal.s "azure_chat_openai/"),
      ("structured_output", FieldVal.b true),
      ("tool_calling", FieldVal.b true),
      ("json_mode", FieldVal.b true),
      ("multimodal", FieldVal.b true),
      ("local", FieldVal.b false),
      ("apiLink", FieldVal.s "https://api.python.langchain.com/en/latest/chat_models/langchain_openai.chat_models.azure.AzureChatOpenAI.html#langchain_openai.chat_models.azure.AzureChatOpenAI")],
    [("name", FieldVal.s "ChatOpenAI"),
      ("package", FieldVal.s "langchain-openai"),
      ("link", FieldVal.s "openai/"),
      ("structured_output", FieldVal.b true),
      ("tool_calling", FieldVal.b true),
      ("json_mode", FieldVal.b true),
      ("multimodal", FieldVal.b true),
      ("local", FieldVal.b false),
      ("apiLink", FieldVal.s "https://api.python.langchain.com/en/latest/chat_models/langchain_openai.chat_models.base.ChatOpenAI.html#langchain_openai.chat_models.base.ChatOpenAI")],
    [("name", FieldVal.s "ChatTogether"),
      ("package", FieldVal.s "langchain-together"),
      ("link", FieldVal.s "together/"),
      ("structured_output", FieldVal.b true),
      ("tool_calling", FieldVal.b true),
      ("json_mode", FieldVal.b true),
      ("multimodal", FieldVal.b false),
      ("local", FieldVal.b false),
      ("apiLink", FieldVal.s "https://api.python.langchain.com/en/latest/chat_models/langchain_together.chat_models.ChatTogether.html#langchain_together.chat_models.ChatTogether")],
    [("name", FieldVal.s "ChatVertexAI"),
      ("package", FieldVal.s "langchain-google-vertexai"),
      ("link", FieldVal.s "google_vertex_ai_palm/"),
      ("structured_output", FieldVal.b true),
      ("tool_calling", FieldVal.b true),
      ("json_mode", FieldVal.b false),
      ("multimodal", FieldVal.b true),
      ("local", FieldVal.b false),
      ("apiLink", FieldVal.s "https://api.python.langchain.com/en/latest/chat_models/langchain_google_vertexai.chat_models.ChatVertexAI.html#langchain_google_vertexai.chat_models.ChatVertexAI")],
    [("name", FieldVal.s "ChatGoogleGenerativeAI"),
      ("package", FieldVal.s "langchain-google-genai"),
      ("link", FieldVal.s "google_generative_ai/"),
      ("structured_output", FieldVal.b true),
      ("tool_calling", FieldVal.b true),
      ("json_mode", FieldVal.b false),
      ("multimodal", FieldVal.b true),
      ("local", FieldVal.b false),
      ("apiLink", FieldVal.s "https://api.python.langchain.com/en/latest/chat_models/langchain_google_genai.chat_models.ChatGoogleGenerativeAI.html#langchain_google_genai.chat_models.ChatGoogleGenerativeAI")],
    [("name", FieldVal.s "ChatGroq"),
      ("package", FieldVal.s "langchain-groq"),
      ("link", FieldVal.s "groq/"),
      ("structured_output", FieldVal.b true),
      ("tool_calling", FieldVal.b true),
      ("json_mode", FieldVal.b true),
      ("multimodal", FieldVal.b false),
      ("local", FieldVal.b false),
      ("apiLink", FieldVal.s "https://api.python.langchain.com/en/latest/chat_models/langchain_groq.chat_models.ChatGroq.html#langchain_groq.chat_models.ChatGroq")],
    [("name", FieldVal.s "ChatCohere"),
      ("package", FieldVal.s "langchain-cohere"),
      ("link", FieldVal.s "cohere/"),
      ("structured_output", FieldVal.b true),
      ("tool_calling", FieldVal.b true),
      ("json_mode", FieldVal.b false),
      ("multimodal", FieldVal.b false),
      ("local", FieldVal.b false),
      ("apiLink", FieldVal.s "https://api.python.langchain.com/en/latest/chat_models/langchain_cohere.chat_models.ChatCohere.html#langchain_cohere.chat_models.ChatCohere")],
    [("name", FieldVal.s "ChatBedrock"),
      ("package", FieldVal.s "langchain-aws"),
      ("link", FieldVal.s "bedrock/"),
      ("structured_output", FieldVal.b true),
      ("tool_calling", FieldVal.b true),
      ("json_mode", FieldVal.b false),
      ("multimodal", FieldVal.b false),
      ("local", FieldVal.b false),
      ("apiLink", FieldVal.s "https://api.python.langchain.com/en/latest/chat_models/langchain_aws.chat_models.bedrock.ChatBedrock.html#langchain_aws.chat_models.bedrock.ChatBedrock")],
    [("name", FieldVal.s "ChatHuggingFace"),
      ("package", FieldVal.s "langchain-huggingface"),
      ("link", FieldVal.s "huggingface/"),
      ("structured_output", FieldVal.b true),
      ("tool_calling", FieldVal.b true),
      ("json_mode", FieldVal.b false),
      ("multimodal", FieldVal.b false),
      ("local", FieldVal.b true),
      ("apiLink", FieldVal.s "https://api.python.langchain.com/en/latest/chat_models/langchain_huggingface.chat_models.huggingface.ChatHuggingFace.html#langchain_huggingface.chat_models.huggingface.ChatHuggingFace")],
    [("name", FieldVal.s "ChatNVIDIA"),
      ("package", FieldVal.s "langchain-nvidia-ai-endpoints"),
      ("link", FieldVal.s "nvidia_ai_endpoints/"),
      ("structured_output", FieldVal.b true),
      ("tool_calling", FieldVal.b true),
      ("json_mode", FieldVal.b false),
      ("multimodal", FieldVal.b false),
      ("local", FieldVal.b true),
      ("apiLink", FieldVal.s "https://api.python.langchain.com/en/latest/chat_models/langchain_nvidia_ai_endpoints.chat_models.ChatNVIDIA.html#langchain_nvidia_ai_endpoints.chat_models.ChatNVIDIA")],
    [("name", FieldVal.s "ChatOllama"),
      ("package", FieldVal.s "langchain-ollama"),
      ("link", FieldVal.s "ollama/"),
      ("structured_output", FieldVal.b true),
      ("tool_calling", FieldVal.b true),
      ("json_mode", FieldVal.b true),
      ("multimodal", FieldVal.b false),
      ("local", FieldVal.b true),
      ("apiLink", FieldVal.s "https://api.python.langchain.com/en/latest/chat_models/langchain_ollama.chat_models.ChatOllama.html#langchain_ollama.chat_models.ChatOllama")],
    [("name", FieldVal.s "ChatLlamaCpp"),
      ("package", FieldVal.s "langchain-community"),
      ("link", FieldVal.s "llamacpp"),
      ("structured_output", FieldVal.b true),
      ("tool_calling", FieldVal.b true),
      ("json_mode", FieldVal.b false),
      ("multimodal", FieldVal.b false),
      ("local", FieldVal.b true),
      ("apiLink", FieldVal.s "https://api.python.langchain.com/en/latest/chat_models/langchain_community.chat_models.llamacpp.ChatLlamaCpp.html#langchain_community.chat_models.llamacpp.ChatLlamaCpp")],
    [("name", FieldVal.s "ChatAI21"),
      ("package", FieldVal.s "langchain-ai21"),
      ("link", FieldVal.s "ai21"),
      ("structured_output", FieldVal.b true),
      ("tool_calling", FieldVal.b true),
      ("json_mode", FieldVal.b false),
      ("multimodal", FieldVal.b false),
      ("local", FieldVal.b false),
      ("apiLink", FieldVal.s "https://api.python.langchain.com/en/latest/chat_models/langchain_ai21.chat_models.ChatAI21.html#langchain_ai21.chat_models.ChatAI21")],
    [("name", FieldVal.s "ChatUpstage"),
      ("package", FieldVal.s "langchain-upstage"),
      ("link", FieldVal.s "upstage"),
      ("structured_output", FieldVal.b true),
      ("tool_calling", FieldVal.b true),
      ("json_mode", FieldVal.b false),
      ("multimodal", FieldVal.b false),
      ("local", FieldVal.b false),
      ("apiLink", FieldVal.s "https://api.python.langchain.com/en/latest/chat_models/langchain_upstage.chat_models.ChatUpstage.html#langchain_upstage.chat_models.ChatUpstage")]] }

def cat_llms : Category := {
  link := "/docs/integrations/llms",
  columns := [
    ⟨Node.text "Provider",
      fun item => Node.anchor (item.getStr "link") (Node.text (item.getStr "name"))⟩,
    ⟨Node.text "Package",
      fun item => Node.anchor (item.getStr "apiLink") (Node.text (item.getStr "package"))⟩],
  items := [
    [("name", FieldVal.s "AI21LLM"),
      ("link", FieldVal.s "ai21"),
      ("package", FieldVal.s "langchain-ai21"),
      ("apiLink", FieldVal.s "https://api.python.langchain.com/en/latest/llms/langchain_ai21.llms.AI21LLM.html#langchain_ai21.llms.AI21LLM")],
    [("name", FieldVal.s "AnthropicLLM"),
      ("link", FieldVal.s "anthropic"),
      ("package", FieldVal.s "langchain-anthropic"),
      ("apiLink", FieldVal.s "https://api.python.langchain.com/en/latest/llms/langchain_anthropic.llms.AnthropicLLM.html#langchain_anthropic.llms.AnthropicLLM")],
    [("name", FieldVal.s "AzureOpenAI"),
      ("link", FieldVal.s "azure_openai"),
      ("package", FieldVal.s "langchain-openai"),
      ("apiLink", FieldVal.s "https://api.python.langchain.com/en/latest/llms/langchain_openai.llms.azure.AzureOpenAI.html#langchain_openai.llms.azure.AzureOpenAI")],
    [("name", FieldVal.s "BedrockLLM"),
      ("link", FieldVal.s "bedrock"),
      ("package", FieldVal.s "langchain-aws"),
      ("apiLink", FieldVal.s "https://api.python.langchain.com/en/latest/llms/langchain_aws.llms.bedrock.BedrockLLM.html#langchain_aws.llms.bedrock.BedrockLLM")],
    [("name", FieldVal.s "CohereLLM"),
      ("link", FieldVal.s "cohere"),
      ("package", FieldVal.s "langchain-cohere"),
      ("apiLink", FieldVal.s "https://api.python.langchain.com/en/latest/llms/langchain_cohere.llms.Cohere.html#langchain_cohere.llms.Cohere")],
    [("name", FieldVal.s "FireworksLLM"),
      ("link", FieldVal.s "fireworks"),
      ("package", FieldVal.s "langchain-fireworks"),
      ("apiLink", FieldVal.s "https://api.python.langchain.com/en/latest/llms/langchain_fireworks.llms.Fireworks.html#langchain_fireworks.llms.Fireworks")],
    [("name", FieldVal.s "OllamaLLM"),
      ("link", FieldVal.s "ollama"),
      ("package", FieldVal.s "langchain-ollama"),
      ("apiLink", FieldVal.s "https://api.python.langchain.com/en/latest/llms/langchain_ollama.llms.OllamaLLM.html#langchain_ollama.llms.OllamaLLM")],
    [("name", FieldVal.s "OpenAILLM"),
      ("link", FieldVal.s "openai"),
      ("package", FieldVal.s "langchain-openai"),
      ("apiLink", FieldVal.s "https://api.python.langchain.com/en/latest/llms/langchain_openai.llms.base.OpenAI.html#langchain_openai.llms.base.OpenAI")],
    [("name", FieldVal.s "TogetherLLM"),
      ("link", FieldVal.s "together"),
      ("package", FieldVal.s "langchain-together"),
      ("apiLink", FieldVal.s "https://api.python.langchain.com/en/latest/llms/langchain_together.llms.Together.html#langchain_together.llms.Together")],
    [("name", FieldVal.s "VertexAILLM"),
      ("link", FieldVal.s "google_vertexai"),
      ("package", FieldVal.s "langchain-google_vertexai"),
      ("apiLink", FieldVal.s "https://api.python.langchain.com/en/latest/llms/langchain_google_vertexai.llms.VertexAI.html#langchain_google_vertexai.llms.VertexAI")]] }

def cat_text_embedding : Category := {
  link := "/docs/integrations/text_embedding",
  columns := [
    ⟨Node.text "Provider",
      fun item => Node.anchor (item.getStr "link") (Node.text (item.getStr "name"))⟩,
    ⟨Node.text "Package",
      fun item => Node.anchor (item.getStr "apiLink") (Node.text (item.getStr "package"))⟩],
  items := [
    [("name", FieldVal.s "AzureOpenAI"),
      ("link", FieldVal.s "azureopenai"),
      ("package", FieldVal.s "langchain-openai"),
      ("apiLink", FieldVal.s "https://api.python.langchain.com/en/latest/embeddings/langchain_openai.embeddings.azure.AzureOpenAIEmbeddings.html#langchain_openai.embeddings.azure.AzureOpenAIEmbeddings")],
    [("name", FieldVal.s "Ollama"),
      ("link", FieldVal.s "ollama"),
      ("package", FieldVal.s "langchain-ollama"),
      ("apiLink", FieldVal.s "https://api.python.langchain.com/en/latest/embeddings/langchain_ollama.embeddings.OllamaEmbeddings.html#langchain_ollama.embeddings.OllamaEmbeddings")],
    [("name", FieldVal.s "AI21"),
      ("link", FieldVal.s "ai21"),
      ("package", FieldVal.s "langchain-ai21"),
      ("apiLink", FieldVal.s "https://api.python.langchain.com/en/latest/embeddings/langchain_ai21.embeddings.AI21Embeddings.html#langchain_ai21.embeddings.AI21Embeddings")],
    [("name", FieldVal.s "Fake"),
      ("link", FieldVal.s "fake"),
      ("package", FieldVal.s "langchain-core"),
      ("apiLink", FieldVal.s "https://api.python.langchain.com/en/latest/embeddings/langchain_core.embeddings.fake.FakeEmbeddings.html#langchain_core.embeddings.fake.FakeEmbeddings")],
    [("name", FieldVal.s "OpenAI"),
      ("link", FieldVal.s "openai"),
      ("package", FieldVal.s "langchain-openai"),
      ("apiLink", FieldVal.s "https://api.python.langchain.com/en/latest/chat_models/langchain_openai.chat_models.base.ChatOpenAI.html#langchain_openai.chat_models.base.ChatOpenAI")],
    [("name", FieldVal.s "Together"),
      ("link", FieldVal.s "together"),
      ("package", FieldVal.s "langchain-together"),
      ("apiLink", FieldVal.s "https://api.python.langchain.com/en/latest/embeddings/langchain_together.embeddings.TogetherEmbeddings.html#langchain_together.embeddings.TogetherEmbeddings")],
    [("name", FieldVal.s "Fireworks"),
      ("link", FieldVal.s "fireworks"),
      ("package", FieldVal.s "langchain-fireworks"),
      ("apiLink", FieldVal.s "https://api.python.langchain.com/en/latest/embeddings/langchain_fireworks.embeddings.FireworksEmbeddings.html#langchain_fireworks.embeddings.FireworksEmbeddings")],
    [("name", FieldVal.s "MistralAI"),
      ("link", FieldVal.s "mistralai"),
      ("package", FieldVal.s "langchain-mistralai"),
      ("apiLink", FieldVal.s "https://api.python.langchain.com/en/latest/embeddings/langchain_mistralai.embeddings.MistralAIEmbeddings.html#langchain_mistralai.embeddings.MistralAIEmbeddings")],
    [("name", FieldVal.s "Cohere"),
      ("link", FieldVal.s "cohere"),
      ("package", FieldVal.s "langchain-cohere"),
      ("apiLink", FieldVal.s "https://api.python.langchain.com/en/latest/embeddings/langchain_cohere.embeddings.CohereEmbeddings.html#langchain_cohere.embeddings.CohereEmbeddings")],
    [("name", FieldVal.s "Nomic"),
      ("link", FieldVal.s "cohere"),
      ("package", FieldVal.s "langchain-nomic"),
      ("apiLink", FieldVal.s "https://api.python.langchain.com/en/latest/embeddings/langchain_nomic.embeddings.NomicEmbeddings.html#langchain_nomic.embeddings.NomicEmbeddings")]] }

def cat_document_retrievers : Category := {
  link := "docs/integrations/retrievers",
  columns := [
    ⟨Node.text "Retriever",
      fun item => Node.anchor (item.getStr "link") (Node.text (item.getStr "name"))⟩,
    ⟨Node.text "Self-host",
      fun item => Node.text (if item.getBool "selfHost" then "✅" else "❌")⟩,
    ⟨Node.text "Cloud offering",
      fun item => Node.text (if item.getBool "cloudOffering" then "✅" else "❌")⟩,
    ⟨Node.text "Package",
      fun item => Node.anchor (item.getStr "apiLink") (Node.text (item.getStr "package"))⟩],
  items := [
    [("name", FieldVal.s "AmazonKnowledgeBasesRetriever"),
      ("link", FieldVal.s "bedrock"),
      ("selfHost", FieldVal.b false),
      ("cloudOffering", FieldVal.b true),
      ("apiLink", FieldVal.s "https://api.python.langchain.com/en/latest/retrievers/langchain_aws.retrievers.bedrock.AmazonKnowledgeBasesRetriever.html"),
      ("package", FieldVal.s "langchain_aws")],
    [("name", FieldVal.s "AzureAISearchRetriever"),
      ("link", FieldVal.s "azure_ai_search"),
      ("selfHost", FieldVal.b false),
      ("cloudOffering", FieldVal.b true),
      ("apiLink", FieldVal.s "https://api.python.langchain.com/en/latest/retrievers/langchain_community.retrievers.azure_ai_search.AzureAISearchRetriever.html"),
      ("package", FieldVal.s "langchain_community")],
    [("name", FieldVal.s "ElasticsearchRetriever"),
      ("link", FieldVal.s "elasticsearch_retriever"),
      ("selfHost", FieldVal.b true),
      ("cloudOffering", FieldVal.b true),
      ("apiLink", FieldVal.s "https://api.python.langchain.com/en/latest/retrievers/langchain_elasticsearch.retrievers.ElasticsearchRetriever.html"),
      ("package", FieldVal.s "langchain_elasticsearch")],
    [("name", FieldVal.s "MilvusCollectionHybridSearchRetriever"),
      ("link", FieldVal.s "milvus_hybrid_search"),
      ("selfHost", FieldVal.b true),
      ("cloudOffering", FieldVal.b false),
      ("apiLink", FieldVal.s "https://api.python.langchain.com/en/latest/retrievers/langchain_milvus.retrievers.milvus_hybrid_search.MilvusCollectionHybridSearchRetriever.html"),
      ("package", FieldVal.s "langchain_milvus")],
    [("name", FieldVal.s "VertexAISearchRetriever"),
      ("link", FieldVal.s "google_vertex_ai_search"),
      ("selfHost", FieldVal.b false),
      ("cloudOffering", FieldVal.b true),
      ("apiLink", FieldVal.s "https://api.python.langchain.com/en/latest/vertex_ai_search/langchain_google_community.vertex_ai_search.VertexAISearchRetriever.html"),
      ("package", FieldVal.s "langchain_google_community")]] }

def cat_external_retrievers : Category := {
  link := "docs/integrations/retrievers",
  columns := [
    ⟨Node.text "Retriever",
      fun item => Node.anchor (item.getStr "link") (Node.text (item.getStr "name"))⟩,
    ⟨Node.text "Source",
      fun item => item.getRaw "source"⟩,
    ⟨Node.text "Package",
      fun item => Node.anchor (item.getStr "apiLink") (Node.text (item.getStr "package"))⟩],
  items := [
    [("name", FieldVal.s "ArxivRetriever"),
      ("link", FieldVal.s "arxiv"),
      ("source", FieldVal.node (Node.seq (Node.text "Scholarly articles on ") (Node.anchor "https://arxiv.org/" (Node.text "arxiv.org")))),
      ("apiLink", FieldVal.s "https://api.python.langchain.com/en/latest/retrievers/langchain_community.retrievers.arxiv.ArxivRetriever.html"),
      ("package", FieldVal.s "langchain_community")],
    [("name", FieldVal.s "TavilySearchAPIRetriever"),
      ("link", FieldVal.s "tavily"),
      ("source", FieldVal.s "Internet search"),
      ("apiLink", FieldVal.s "https://api.python.langchain.com/en/latest/retrievers/langchain_community.retrievers.tavily_search_api.TavilySearchAPIRetriever.html"),
      ("package", FieldVal.s "langchain_community")],
    [("name", FieldVal.s "WikipediaRetriever"),
      ("link", FieldVal.s "wikipedia"),
      ("source", FieldVal.node (Node.seq (Node.anchor "https://www.wikipedia.org/" (Node.text "Wikipedia")) (Node.text " articles"))),
      ("apiLink", FieldVal.s "https://api.python.langchain.com/en/latest/retrievers/langchain_community.retrievers.wikipedia.WikipediaRetriever.html"),
      ("package", FieldVal.s "langchain_community")]] }

def cat_document_loaders : Category := {
  link := "docs/integrations/loaders",
  columns := [
    ],
  items := [
    ] }

def cat_cloud_provider_loaders : Category := {
  link := "docs/integrations/loaders",
  columns := [
    ⟨Node.text "Document Loader",
      fun item => Node.anchor (item.getStr "link") (Node.text (item.getStr "name"))⟩,
    ⟨Node.text "Description",
      fun item => item.getRaw "source"⟩,
    ⟨Node.text "Partner Package",
      fun item => Node.text (if item.getBool "partnerPackage" then "✅" else "❌")⟩,
    ⟨Node.text "API reference",
      fun item => Node.anchor (item.getStr "apiLink") (Node.text (item.getStr "loaderName"))⟩],
  items := [
    [("name", FieldVal.s "AWS S3 Directory"),
      ("link", FieldVal.s "aws_s3_directory"),
      ("source", FieldVal.s "Load documents from an AWS S3 directory"),
      ("partnerPackage", FieldVal.b false),
      ("loaderName", FieldVal.s "S3DirectoryLoader"),
      ("apiLink", FieldVal.s "https://api.python.langchain.com/en/latest/document_loaders/langchain_community.document_loaders.s3_directory.S3DirectoryLoader.html")],
    [("name", FieldVal.s "AWS S3 File"),
      ("link", FieldVal.s "aws_s3_file"),
      ("source", FieldVal.s "Load documents from an AWS S3 file"),
      ("partnerPackage", FieldVal.b false),
      ("loaderName", FieldVal.s "S3FileLoader"),
      ("apiLink", FieldVal.s "https://api.python.langchain.com/en/latest/document_loaders/langchain_community.document_loaders.s3_file.S3FileLoader.html")],
    [("name", FieldVal.s "Azure AI Data"),
      ("link", FieldVal.s "azure_ai_data"),
      ("source", FieldVal.s "Load documents from Azure AI services"),
      ("partnerPackage", FieldVal.b false),
      ("loaderName", FieldVal.s "AzureAIDataLoader"),
      ("apiLink", FieldVal.s "https://api.python.langchain.com/en/latest/document_loaders/langchain_community.document_loaders.azure_ai_data.AzureAIDataLoader.html")],
    [("name", FieldVal.s "Azure Blob Storage Container"),
      ("link", FieldVal.s "azure_blob_storage_container"),
      ("source", FieldVal.s "Load documents from an Azure Blob Storage container"),
      ("partnerPackage", FieldVal.b false),
      ("loaderName", FieldVal.s "AzureBlobStorageContainerLoader"),
      ("apiLink", FieldVal.s "https://api.python.langchain.com/en/latest/document_loaders/langchain_community.document_loaders.azure_blob_storage_container.AzureBlobStorageContainerLoader.html")],
    [("name", FieldVal.s "Azure Blob Storage File"),
      ("link", FieldVal.s "azure_blob_storage_file"),
      ("source", FieldVal.s "Load documents from an Azure Blob Storage file"),
      ("partnerPackage", FieldVal.b false),
      ("loaderName", FieldVal.s "AzureBlobStorageFileLoader"),
      ("apiLink", FieldVal.s "https://api.python.langchain.com/en/latest/document_loaders/langchain_community.document_loaders.azure_blob_storage_file.AzureBlobStorageFileLoader.html")],
    [("name", FieldVal.s "Dropbox"),
      ("link", FieldVal.s "dropbox"),
      ("source", FieldVal.s "Load documents from Dropbox"),
      ("partnerPackage", FieldVal.b false),
      ("loaderName", FieldVal.s "DropboxLoader"),
      ("apiLink", FieldVal.s "https://api.python.langchain.com/en/latest/document_loaders/langchain_community.document_loaders.dropbox.DropboxLoader.html")],
    [("name", FieldVal.s "Google Cloud Storage Directory"),
      ("link", FieldVal.s "google_cloud_storage_directory"),
      ("source", FieldVal.s "Load documents from GCS bucket"),
      ("partnerPackage", FieldVal.b true),
      ("loaderName", FieldVal.s "GCSDirectoryLoader"),
      ("apiLink", FieldVal.s "https://api.python.langchain.com/en/latest/gcs_directory/langchain_google_community.gcs_directory.GCSDirectoryLoader.html")],
    [("name", FieldVal.s "Google Cloud Storage File"),
      ("link", FieldVal.s "google_cloud_storage_file"),
      ("source", FieldVal.s "Load documents from GCS file object"),
      ("partnerPackage", FieldVal.b true),
      ("loaderName", FieldVal.s "GCSFileLoader"),
      ("apiLink", FieldVal.s "https://api.python.langchain.com/en/latest/gcs_file/langchain_google_community.gcs_file.GCSFileLoader.html")],
    [("name", FieldVal.s "Google Drive"),
      ("link", FieldVal.s "google_drive"),
      ("source", FieldVal.s "Load documents from Google Drive (Google Docs only)"),
      ("partnerPackage", FieldVal.b true),
      ("loaderName", FieldVal.s "GoogleDriveLoader"),
      ("apiLink", FieldVal.s "https://api.python.langchain.com/en/latest/drive/langchain_google_community.drive.GoogleDriveLoader.html")],
    [("name", FieldVal.s "Huawei OBS Directory"),
      ("link", FieldVal.s "huawei_obs_directory"),
      ("source", FieldVal.s "Load documents from Huawei Object Storage Service Directory"),
      ("partnerPackage", FieldVal.b false),
      ("loaderName", FieldVal.s "OBSDirectoryLoader"),
      ("apiLink", FieldVal.s "https://api.python.langchain.com/en/latest/document_loaders/langchain_community.document_loaders.obs_directory.OBSDirectoryLoader.html")],
    [("name", FieldVal.s "Huawei OBS File"),
      ("link", FieldVal.s "huawei_obs_file"),
      ("source", FieldVal.s "Load documents from Huawei Object Storage Service File"),
      ("partnerPackage", FieldVal.b false),
      ("loaderName", FieldVal.s "OBSFileLoader"),
      ("apiLink", FieldVal.s "https://api.python.langchain.com/en/latest/document_loaders/langchain_community.document_loaders.obs_file.OBSFileLoader.html")],
    [("name", FieldVal.s "Microsoft OneDrive"),
      ("link", FieldVal.s "microsoft_onedrive"),
      ("source", FieldVal.s "Load documents from Microsoft OneDrive"),
      ("partnerPackage", FieldVal.b false),
      ("loaderName", FieldVal.s "OneDriveLoader"),
      ("apiLink", FieldVal.s "https://api.python.langchain.com/en/latest/document_loaders/langchain_community.document_loaders.onedrive.OneDriveLoader.html")],
    [("name", FieldVal.s "Microsoft SharePoint"),
      ("link", FieldVal.s "microsoft_sharepoint"),
      ("source", FieldVal.s "Load documents from Microsoft SharePoint"),
      ("partnerPackage", FieldVal.b false),
      ("loaderName", FieldVal.s "SharePointLoader"),
      ("apiLink", FieldVal.s "https://api.python.langchain.com/en/latest/document_loaders/langchain_community.document_loaders.sharepoint.SharePointLoader.html")],
    [("name", FieldVal.s "Tencent COS Directory"),
      ("link", FieldVal.s "tencent_cos_directory"),
      ("source", FieldVal.s "Load documents from Tencent Cloud Object Storage Directory"),
      ("partnerPackage", FieldVal.b false),
      ("loaderName", FieldVal.s "TencentCOSDirectoryLoader"),
      ("apiLink", FieldVal.s "https://api.python.langchain.com/en/latest/document_loaders/langchain_community.document_loaders.tencent_cos_directory.TencentCOSDirectoryLoader.html")],
    [("name", FieldVal.s "Tencent COS File"),
      ("link", FieldVal.s "tencent_cos_file"),
      ("source", FieldVal.s "Load documents from Tencent Cloud Object Storage File"),
      ("partnerPackage", FieldVal.b false),
      ("loaderName", FieldVal.s "TencentCOSFileLoader"),
      ("apiLink", FieldVal.s "https://api.python.langchain.com/en/latest/document_loaders/langchain_community.document_loaders.tencent_cos_file.TencentCOSFileLoader.html")]] }

def cat_messaging_loaders : Category := {
  link := "docs/integrations/loaders",
  columns := [
    ⟨Node.text "Document Loader",
      fun item => Node.anchor (item.getStr "link") (Node.text (item.getStr "name"))⟩,
    ⟨Node.text "API reference",
      fun item => Node.anchor (item.getStr "apiLink") (Node.text (item.getStr "loaderName"))⟩],
  items := [
    [("name", FieldVal.s "Telegram"),
      ("link", FieldVal.s "telegram"),
      ("loaderName", FieldVal.s "TelegramChatFileLoader"),
      ("apiLink", FieldVal.s "https://api.python.langchain.com/en/latest/document_loaders/langchain_community.document_loaders.telegram.TelegramChatFileLoader.html")],
    [("name", FieldVal.s "WhatsApp"),
      ("link", FieldVal.s "whatsapp_chat"),
      ("loaderName", FieldVal.s "WhatsAppChatLoader"),
      ("apiLink", FieldVal.s "https://api.python.langchain.com/en/latest/chat_loaders/langchain_community.chat_loaders.whatsapp.WhatsAppChatLoader.html")],
    [("name", FieldVal.s "Discord"),
      ("link", FieldVal.s "discord"),
      ("loaderName", FieldVal.s "DiscordChatLoader"),
      ("apiLink", FieldVal.s "https://api.python.langchain.com/en/latest/document_loaders/langchain_community.document_loaders.discord.DiscordChatLoader.html")],
    [("name", FieldVal.s "Facebook Chat"),
      ("link", FieldVal.s "facebook_chat"),
      ("loaderName", FieldVal.s "FacebookChatLoader"),
      ("apiLink", FieldVal.s "https://api.python.langchain.com/en/latest/document_loaders/langchain_community.document_loaders.facebook_chat.FacebookChatLoader.html")],
    [("name", FieldVal.s "Mastodon"),
      ("link", FieldVal.s "mastodon"),
      ("loaderName", FieldVal.s "MastodonTootsLoader"),
      ("apiLink", FieldVal.s "https://api.python.langchain.com/en/latest/document_loaders/langchain_community.document_loaders.mastodon.MastodonTootsLoader.html")]] }

def cat_productivity_loaders : Category := {
  link := "docs/integrations/loaders",
  columns := [
    ⟨Node.text "Document Loader",
      fun item => Node.anchor (item.getStr "link") (Node.text (item.getStr "name"))⟩,
    ⟨Node.text "API reference",
      fun item => Node.anchor (item.getStr "apiLink") (Node.text (item.getStr "loaderName"))⟩],
  items := [
    [("name", FieldVal.s "Figma"),
      ("link", FieldVal.s "figma"),
      ("loaderName", FieldVal.s "FigmaFileLoader"),
      ("apiLink", FieldVal.s "https://api.python.langchain.com/en/latest/document_loaders/langchain_community.document_loaders.figma.FigmaFileLoader.html")],
    [("name", FieldVal.s "Notion"),
      ("link", FieldVal.s "notion"),
      ("loaderName", FieldVal.s "NotionDirectoryLoader"),
      ("apiLink", FieldVal.s "https://api.python.langchain.com/en/latest/document_loaders/langchain_community.document_loaders.notion.NotionDirectoryLoader.html")],
    [("name", FieldVal.s "Slack"),
      ("link", FieldVal.s "slack"),
      ("loaderName", FieldVal.s "SlackDirectoryLoader"),
      ("apiLink", FieldVal.s "https://api.python.langchain.com/en/latest/document_loaders/langchain_community.document_loaders.slack_directory.SlackDirectoryLoader.html")],
    [("name", FieldVal.s "Quip"),
      ("link", FieldVal.s "quip"),
      ("loaderName", FieldVal.s "QuipLoader"),
      ("apiLink", FieldVal.s "https://api.python.langchain.com/en/latest/document_loaders/langchain_community.document_loaders.quip.QuipLoader.html")],
    [("name", FieldVal.s "Trello"),
      ("link", FieldVal.s "trello"),
      ("loaderName", FieldVal.s "TrelloLoader"),
      ("apiLink", FieldVal.s "https://api.python.langchain.com/en/latest/document_loaders/langchain_community.document_loaders.trello.TrelloLoader.html")],
    [("name", FieldVal.s "Roam"),
      ("link", FieldVal.s "roam"),
      ("loaderName", FieldVal.s "RoamLoader"),
      ("apiLink", FieldVal.s "https://api.python.langchain.com/en/latest/document_loaders/langchain_community.document_loaders.roam.RoamLoader.html")],
    [("name", FieldVal.s "GitHub"),
      ("link", FieldVal.s "github"),
      ("loaderName", FieldVal.s "GithubFileLoader"),
      ("apiLink", FieldVal.s "https://api.python.langchain.com/en/latest/document_loaders/langchain_community.document_loaders.github.GithubFileLoader.html")]] }

def cat_social_loaders : Category := {
  link := "docs/integrations/loaders",
  columns := [
    ⟨Node.text "Document Loader",
      fun item => Node.anchor (item.getStr "link") (Node.text (item.getStr "name"))⟩,
    ⟨Node.text "API reference",
      fun item => Node.anchor (item.getStr "apiLink") (Node.text (item.getStr "loaderName"))⟩],
  items := [
    [("name", FieldVal.s "Twitter"),
      ("link", FieldVal.s "twitter"),
      ("loaderName", FieldVal.s "TwitterTweetLoader"),
      ("apiLink", FieldVal.s "https://api.python.langchain.com/en/latest/document_loaders/langchain_community.document_loaders.twitter.TwitterTweetLoader.html")],
    [("name", FieldVal.s "Reddit"),
      ("link", FieldVal.s "RedditPostsLoader"),
      ("loaderName", FieldVal.s "RedditPostsLoader"),
      ("apiLink", FieldVal.s "https://api.python.langchain.com/en/latest/document_loaders/langchain_community.document_loaders.reddit.RedditPostsLoader.html")]] }

def cat_webpage_loaders : Category := {
  link := "docs/integrations/loaders",
  columns := [
    ⟨Node.text "Document Loader",
      fun item => Node.anchor (item.getStr "link") (Node.text (item.getStr "name"))⟩,
    ⟨Node.text "Description",
      fun item => item.getRaw "source"⟩,
    ⟨Node.text "Package/API",
      fun item => item.getRaw "api"⟩],
  items := [
    [("name", FieldVal.s "Web"),
      ("link", FieldVal.s "web_base"),
      ("source", FieldVal.s "Uses urllib and BeautifulSoup to load and parse HTML web pages"),
      ("api", FieldVal.s "Package"),
      ("apiLink", FieldVal.s "https://api.python.langchain.com/en/latest/document_loaders/langchain_community.document_loaders.web_base.WebBaseLoader.html")],
    [("name", FieldVal.s "RecursiveURL"),
      ("link", FieldVal.s "recursive_url"),
      ("source", FieldVal.s "Recursively scrapes all child links from a root URL"),
      ("api", FieldVal.s "Package"),
      ("apiLink", FieldVal.s "https://api.python.langchain.com/en/latest/document_loaders/langchain_community.document_loaders.recursive_url_loader.RecursiveUrlLoader.html")],
    [("name", FieldVal.s "Sitemap"),
      ("link", FieldVal.s "sitemap"),
      ("source", FieldVal.s "Scrapes all pages on a given sitemap"),
      ("api", FieldVal.s "Package"),
      ("apiLink", FieldVal.s "https://api.python.langchain.com/en/latest/document_loaders/langchain_community.document_loaders.sitemap.SitemapLoader.html")],
    [("name", FieldVal.s "Firecrawl"),
      ("link", FieldVal.s "firecrawl"),
      ("source", FieldVal.s "API service that can be deployed locally, hosted version has free credits."),
      ("api", FieldVal.s "API"),
      ("apiLink", FieldVal.s "https://api.python.langchain.com/en/latest/document_loaders/langchain_community.document_loaders.firecrawl.FireCrawlLoader.html")]] }

def cat_pdf_loaders : Category := {
  link := "docs/integrations/loaders",
  columns := [
    ⟨Node.text "Document Loader",
      fun item => Node.anchor (item.getStr "link") (Node.text (item.getStr "name"))⟩,
    ⟨Node.text "Description",
      fun item => item.getRaw "source"⟩,
    ⟨Node.text "Package/API",
      fun item => item.getRaw "api"⟩],
  items := [
    [("name", FieldVal.s "PyPDF"),
      ("link", FieldVal.s "pypdfloader"),
      ("source", FieldVal.s "Uses `pypdf` to load and parse PDFs"),
      ("api", FieldVal.s "Package"),
      ("apiLink", FieldVal.s "https://api.python.langchain.com/en/latest/document_loaders/langchain_community.document_loaders.pdf.PyPDFLoader.html")],
    [("name", FieldVal.s "Unstructured"),
      ("link", FieldVal.s "unstructured_file"),
      ("source", FieldVal.s "Uses Unstructured\x27s open source library to load PDFs"),
      ("api", FieldVal.s "Package"),
      ("apiLink", FieldVal.s "https://api.python.langchain.com/en/latest/document_loaders/langchain_unstructured.document_loaders.UnstructuredLoader.html")],
    [("name", FieldVal.s "Amazon Textract"),
      ("link", FieldVal.s "amazon_textract"),
      ("source", FieldVal.s "Uses AWS API to load PDFs"),
      ("api", FieldVal.s "API"),
      ("apiLink", FieldVal.s "https://api.python.langchain.com/en/latest/document_loaders/langchain_community.document_loaders.pdf.AmazonTextractPDFLoader.html")],
    [("name", FieldVal.s "MathPix"),
      ("link", FieldVal.s "mathpix"),
      ("source", FieldVal.s "Uses MathPix to laod PDFs"),
      ("api", FieldVal.s "Package"),
      ("apiLink", FieldVal.s "https://api.python.langchain.com/en/latest/document_loaders/langchain_community.document_loaders.pdf.MathpixPDFLoader.html")],
    [("name", FieldVal.s "PDFPlumber"),
      ("link", FieldVal.s "pdfplumber"),
      ("source", FieldVal.s "Load PDF files using PDFPlumber"),
      ("api", FieldVal.s "Package"),
      ("apiLink", FieldVal.s "https://api.python.langchain.com/en/latest/document_loaders/langchain_community.document_loaders.pdf.PDFPlumberLoader.html")],
    [("name", FieldVal.s "PyPDFDirectry"),
      ("link", FieldVal.s "pypdfdirectory"),
      ("source", FieldVal.s "Load a directory with PDF files"),
      ("api", FieldVal.s "Package"),
      ("apiLink", FieldVal.s "https://api.python.langchain.com/en/latest/document_loaders/langchain_community.document_loaders.pdf.PyPDFDirectoryLoader.html")],
    [("name", FieldVal.s "PyPDFium2"),
      ("link", FieldVal.s "pypdfium2"),
      ("source", FieldVal.s "Load PDF files using PyPDFium2"),
      ("api", FieldVal.s "Package"),
      ("apiLink", FieldVal.s "https://api.python.langchain.com/en/latest/document_loaders/langchain_community.document_loaders.pdf.PyPDFium2Loader.html")],
    [("name", FieldVal.s "UnstructuredPDFLoader"),
      ("link", FieldVal.s "unstructured_pdfloader"),
      ("source", FieldVal.s "Load PDF files using Unstructured"),
      ("api", FieldVal.s "Package"),
      ("apiLink", FieldVal.s "https://api.python.langchain.com/en/latest/document_loaders/langchain_community.document_loaders.pdf.UnstructuredPDFLoader.html")],
    [("name", FieldVal.s "PyMuPDF"),
      ("link", FieldVal.s "pymupdf"),
      ("source", FieldVal.s "Load PDF files using PyMuPDF"),
      ("api", FieldVal.s "Package"),
      ("apiLink", FieldVal.s "https://api.python.langchain.com/en/latest/document_loaders/langchain_community.document_loaders.pdf.PyMuPDFLoader.html")],
    [("name", FieldVal.s "PDFMiner"),
      ("link", FieldVal.s "pdfminer"),
      ("source", FieldVal.s "Load PDF files using PDFMiner"),
      ("api", FieldVal.s "Package"),
      ("apiLink", FieldVal.s "https://api.python.langchain.com/en/latest/document_loaders/langchain_community.document_loaders.pdf.PDFMinerLoader.html")]] }

def cat_common_loaders : Category := {
  link := "docs/integrations/loaders",
  columns := [
    ⟨Node.text "Document Loader",
      fun item => Node.anchor (item.getStr "link") (Node.text (item.getStr "name"))⟩,
    ⟨Node.text "Data Type",
      fun item => item.getRaw "source"⟩],
  items := [
    [("name", FieldVal.s "CSVLoader"),
      ("link", FieldVal.s "csv"),
      ("source", FieldVal.s "CSV files"),
      ("apiLink", FieldVal.s "https://api.python.langchain.com/en/latest/document_loaders/langchain_community.document_loaders.csv_loader.CSVLoader.html")],
    [("name", FieldVal.s "DirectoryLoader"),
      ("link", FieldVal.s "../../how_to/document_loader_directory"),
      ("source", FieldVal.s "All files in a given directory"),
      ("apiLink", FieldVal.s "https://api.python.langchain.com/en/latest/document_loaders/langchain_community.document_loaders.directory.DirectoryLoader.html")],
    [("name", FieldVal.s "Unstructured"),
      ("link", FieldVal.s "unstructured_file"),
      ("source", FieldVal.s "All file types"),
      ("apiLink", FieldVal.s "https://api.python.langchain.com/en/latest/document_loaders/langchain_unstructured.document_loaders.UnstructuredLoader.html")],
    [("name", FieldVal.s "JSONLoader"),
      ("link", FieldVal.s "json"),
      ("source", FieldVal.s "JSON files"),
      ("apiLink", FieldVal.s "https://api.python.langchain.com/en/latest/document_loaders/langchain_community.document_loaders.json_loader.JSONLoader.html")],
    [("name", FieldVal.s "UnstructuredMarkdownLoader"),
      ("link", FieldVal.s "unstructured_markdown"),
      ("source", FieldVal.s "Markdown files"),
      ("apiLink", FieldVal.s "https://api.python.langchain.com/en/latest/document_loaders/langchain_community.document_loaders.markdown.UnstructuredMarkdownLoader.html")],
    [("name", FieldVal.s "BSHTMLLoader"),
      ("link", FieldVal.s "bshtml"),
      ("source", FieldVal.s "HTML files"),
      ("apiLink", FieldVal.s "https://api.python.langchain.com/en/latest/document_loaders/langchain_community.document_loaders.html_bs.BSHTMLLoader.html")],
    [("name", FieldVal.s "UnstrucutredXMLLoader"),
      ("link", FieldVal.s "xml"),
      ("source", FieldVal.s "XML files"),
      ("apiLink", FieldVal.s "https://api.python.langchain.com/en/latest/document_loaders/langchain_community.document_loaders.xml.UnstructuredXMLLoader.html")]] }

def cat_vectorstores : Category := {
  link := "docs/integrations/vectorstores",
  columns := [
    ⟨Node.text "Vectorstore",
      fun item => Node.anchor (item.getStr "link") (Node.text (item.getStr "name"))⟩,
    ⟨Node.text "Delete by ID",
      fun item => Node.text (if item.getBool "deleteById" then "✅" else "❌")⟩,
    ⟨Node.text "Filtering",
      fun item => Node.text (if item.getBool "filtering" then "✅" else "❌")⟩,
    ⟨Node.text "Search by Vector",
      fun item => Node.text (if item.getBool "searchByVector" then "✅" else "❌")⟩,
    ⟨Node.text "Search with score",
      fun item => Node.text (if item.getBool "searchWithScore" then "✅" else "❌")⟩,
    ⟨Node.text "Async",
      fun item => Node.text (if item.getBool "async" then "✅" else "❌")⟩,
    ⟨Node.text "Passes Standard Tests",
      fun item => Node.text (if item.getBool "passesStandardTests" then "✅" else "❌")⟩,
    ⟨Node.text "Multi Tenancy",
      fun item => Node.text (if item.getBool "multiTenancy" then "✅" else "❌")⟩,
    ⟨Node.text "IDs in add Documents",
      fun item => Node.text (if item.getBool "idsInAddDocuments" then "✅" else "❌")⟩,
    ⟨Node.text "Local/Cloud",
      fun item => Node.text (if item.getBool "local" then "Local" else "Cloud")⟩],
  items := [
    [("name", FieldVal.s "AstraDBVectorStore"),
      ("link", FieldVal.s "astradb"),
      ("deleteById", FieldVal.b true),
      ("filtering", FieldVal.b true),
      ("searchByVector", FieldVal.b true),
      ("searchWithScore", FieldVal.b true),
      ("async", FieldVal.b true),
      ("passesStandardTests", FieldVal.b false),
      ("multiTenancy", FieldVal.b false),
      ("local", FieldVal.b true),
      ("idsInAddDocuments", FieldVal.b false)],
    [("name", FieldVal.s "Chroma"),
      ("link", FieldVal.s "chroma"),
      ("deleteById", FieldVal.b true),
      ("filtering", FieldVal.b true),
      ("searchByVector", FieldVal.b true),
      ("searchWithScore", FieldVal.b true),
      ("async", FieldVal.b true),
      ("passesStandardTests", FieldVal.b false),
      ("multiTenancy", FieldVal.b false),
      ("local", FieldVal.b true),
      ("idsInAddDocuments", FieldVal.b false)],
    [("name", FieldVal.s "Clickhouse"),
      ("link", FieldVal.s "clickhouse"),
      ("deleteById", FieldVal.b true),
      ("filtering", FieldVal.b true),
      ("searchByVector", FieldVal.b false),
      ("searchWithScore", FieldVal.b true),
      ("async", FieldVal.b false),
      ("passesStandardTests", FieldVal.b false),
      ("multiTenancy", FieldVal.b false),
      ("local", FieldVal.b true),
      ("idsInAddDocuments", FieldVal.b false)],
    [("name", FieldVal.s "CouchbaseVectorStore"),
      ("link", FieldVal.s "couchbase"),
      ("deleteById", FieldVal.b true),
      ("filtering", FieldVal.b true),
      ("searchByVector", FieldVal.b false),
      ("searchWithScore", FieldVal.b true),
      ("async", FieldVal.b true),
      ("passesStandardTests", FieldVal.b false),
      ("multiTenancy", FieldVal.b false),
      ("local", FieldVal.b true),
      ("idsInAddDocuments", FieldVal.b false)],
    [("name", FieldVal.s "ElasticsearchStore"),
      ("link", FieldVal.s "elasticsearch"),
      ("deleteById", FieldVal.b true),
      ("filtering", FieldVal.b true),
      ("searchByVector", FieldVal.b true),
      ("searchWithScore", FieldVal.b false),
      ("async", FieldVal.b true),
      ("passesStandardTests", FieldVal.b false),
      ("multiTenancy", FieldVal.b false),
      ("local", FieldVal.b true),
      ("idsInAddDocuments", FieldVal.b false)],
    [("name", FieldVal.s "FAISS"),
      ("link", FieldVal.s "faiss"),
      ("deleteById", FieldVal.b true),
      ("filtering", FieldVal.b true),
      ("searchByVector", FieldVal.b true),
      ("searchWithScore", FieldVal.b true),
      ("async", FieldVal.b true),
      ("passesStandardTests", FieldVal.b false),
      ("multiTenancy", FieldVal.b false),
      ("local", FieldVal.b true),
      ("idsInAddDocuments", FieldVal.b false)],
    [("name", FieldVal.s "InMemoryVectorStore"),
      ("link", FieldVal.s "in_memory"),
      ("deleteById", FieldVal.b true),
      ("filtering", FieldVal.b true),
      ("searchByVector", FieldVal.b false),
      ("searchWithScore", FieldVal.b true),
      ("async", FieldVal.b true),
      ("passesStandardTests", FieldVal.b false),
      ("multiTenancy", FieldVal.b false),
      ("local", FieldVal.b true),
      ("idsInAddDocuments", FieldVal.b false)],
    [("name", FieldVal.s "Milvus"),
      ("link", FieldVal.s "milvus"),
      ("deleteById", FieldVal.b true),
      ("filtering", FieldVal.b true),
      ("searchByVector", FieldVal.b false),
      ("searchWithScore", FieldVal.b true),
      ("async", FieldVal.b true),
      ("passesStandardTests", FieldVal.b false),
      ("multiTenancy", FieldVal.b false),
      ("local", FieldVal.b true),
      ("idsInAddDocuments", FieldVal.b false)],
    [("name", FieldVal.s "MongoDBAtlasVectorSearch"),
      ("link", FieldVal.s "mongodb_atlas"),
      ("deleteById", FieldVal.b true),
      ("filtering", FieldVal.b true),
      ("searchByVector", FieldVal.b false),
      ("searchWithScore", FieldVal.b false),
      ("async", FieldVal.b true),
      ("passesStandardTests", FieldVal.b false),
      ("multiTenancy", FieldVal.b false),
      ("local", FieldVal.b true),
      ("idsInAddDocuments", FieldVal.b false)],
    [("name", FieldVal.s "PGVector"),
      ("link", FieldVal.s "pg_vector"),
      ("deleteById", FieldVal.b true),
      ("filtering", FieldVal.b true),
      ("searchByVector", FieldVal.b true),
      ("searchWithScore", FieldVal.b true),
      ("async", FieldVal.b true),
      ("passesStandardTests", FieldVal.b false),
      ("multiTenancy", FieldVal.b false),
      ("local", FieldVal.b true),
      ("idsInAddDocuments", FieldVal.b false)],
    [("name", FieldVal.s "PineconeVectorStore"),
      ("link", FieldVal.s "pinecone"),
      ("deleteById", FieldVal.b true),
      ("filtering", FieldVal.b true),
      ("searchByVector", FieldVal.b true),
      ("searchWithScore", FieldVal.b false),
      ("async", FieldVal.b true),
      ("passesStandardTests", FieldVal.b false),
      ("multiTenancy", FieldVal.b false),
      ("local", FieldVal.b true),
      ("idsInAddDocuments", FieldVal.b false)],
    [("name", FieldVal.s "QdrantVectorStore"),
      ("link", FieldVal.s "qdrant"),
      ("deleteById", FieldVal.b true),
      ("filtering", FieldVal.b true),
      ("searchByVector", FieldVal.b true),
      ("searchWithScore", FieldVal.b true),
      ("async", FieldVal.b true),
      ("passesStandardTests", FieldVal.b false),
      ("multiTenancy", FieldVal.b false),
      ("local", FieldVal.b true),
      ("idsInAddDocuments", FieldVal.b false)],
    [("name", FieldVal.s "Redis"),
      ("link", FieldVal.s "redis"),
      ("deleteById", FieldVal.b true),
      ("filtering", FieldVal.b true),
      ("searchByVector", FieldVal.b true),
      ("searchWithScore", FieldVal.b true),
      ("async", FieldVal.b true),
      ("passesStandardTests", FieldVal.b false),
      ("multiTenancy", FieldVal.b false),
      ("local", FieldVal.b true),
      ("idsInAddDocuments", FieldVal.b false)]] }

def FEATURE_TABLES : List (String × Category) := [
  ("chat", cat_chat),
  ("llms", cat_llms),
  ("text_embedding", cat_text_embedding),
  ("document_retrievers", cat_document_retrievers),
  ("external_retrievers", cat_external_retrievers),
  ("document_loaders", cat_document_loaders),
  ("cloud_provider_loaders", cat_cloud_provider_loaders),
  ("messaging_loaders", cat_messaging_loaders),
  ("productivity_loaders", cat_productivity_loaders),
  ("social_loaders", cat_social_loaders),
  ("webpage_loaders", cat_webpage_loaders),
  ("pdf_loaders", cat_pdf_loaders),
  ("common_loaders", cat_common_loaders),
  ("vectorstores", cat_vectorstores)]

def DEPRECATED_DOC_IDS : List String := [
  "integrations/chat/anthropic_functions",
  "integrations/chat/ernie",
  "integrations/chat/ollama_functions",
  "integrations/document_loaders/airbyte_cdk",
  "integrations/document_loaders/airbyte_gong",
  "integrations/document_loaders/airbyte_hubspot",
  "integrations/document_loaders/airbyte_json",
  "integrations/document_loaders/airbyte_salesforce",
  "integrations/document_loaders/airbyte_shopify",
  "integrations/document_loaders/airbyte_stripe",
  "integrations/document_loaders/airbyte_typeform",
  "integrations/document_loaders/airbyte_zendesk_support",
  "integrations/llms/anthropic",
  "integrations/text_embedding/ernie"]
/-- Failure modes of the rendering operations: a missing category key
makes the JS component throw while reading a property of `undefined`
(the spec's `UnknownCategory`); a missing item hits the explicit
`throw new Error` in `ItemTable` (the spec's `ItemNotFound`). -/
inductive RenderError where
  | UnknownCategory (category : String)
  | ItemNotFound (item category : String)
deriving DecidableEq, Repr

/-- `CategoryTable({category})`: `FEATURE_TABLES[category]` then
`toTable(cat.columns, cat.items)`. A missing key throws before any
output is produced; modelled `UnknownCategory`. -/
def CategoryTable (category : String) : Except RenderError Table :=
  match FEATURE_TABLES.lookup category with
  | none => .error (.UnknownCategory category)
  | some cat => .ok (toTable cat.columns cat.items)

/-- `ItemTable({category, item})`: `FEATURE_TABLES[category]` (a missing
key throws, before any item lookup), then
`cat.items.find((i) => i.name === item)`; a missing item throws
`Item ... not found in category ...`, else `toTable(cat.columns, [row])`. -/
def ItemTable (category item : String) : Except RenderError Table :=
  match FEATURE_TABLES.lookup category with
  | none => .error (.UnknownCategory category)
  | some cat =>
    match cat.items.find? (fun i => i.getStr? "name" == some item) with
    | none => .error (.ItemNotFound item category)
    | some row => .ok (toTable cat.columns [row])

/-- `truncate(str, n)`:
`(str.length > n) ? str.substring(0, n-1) + '...' : str`. -/
def truncate (str : String) (n : Nat) : String :=
  if str.length > n then str.take (n - 1) ++ "..." else str

/-- A sidebar entry supplied by the external `useCurrentSidebarCategory()`
provider: an optional `docId`, plus `href` and `label`. -/
structure SidebarEntry where
  docId : Option String
  href : String
  label : String
deriving DecidableEq, Repr

/-- A surviving sidebar entry extended with its resolved description:
`{...item, description: useDocById(item.docId ?? undefined)?.description}`. -/
structure SidebarRow extends SidebarEntry where
  description : Option String
deriving DecidableEq, Repr

/-- JS `String.prototype.endsWith(post)`: a character-level suffix
test. -/
def strEndsWith (s post : String) : Bool :=
  post.data.isSuffixOf s.data

/-- The filter predicate of `IndexTable`:
`!item.docId?.endsWith?.("/index") && !DEPRECATED_DOC_IDS.includes(item.docId)`.
An absent `docId` (`undefined`) fails neither test, so such an entry is
kept. -/
def keepEntry (item : SidebarEntry) : Bool :=
  !(match item.docId with | some d => strEndsWith d "/index" | none => false)
    && !(match item.docId with | some d => DEPRECATED_DOC_IDS.contains d | none => false)

/-- The two columns of `IndexTable`: a Name hyperlink
`<a href={item.href}>{item.label}</a>` and a Description cell
`truncate(item.description ?? "", 70)`. -/
def indexColumns : List (Column SidebarRow) := [
  { title := .text "Name",
    formatter := fun item => .anchor item.href (.text item.label) },
  { title := .text "Description",
    formatter := fun item => .text (truncate (item.description.getD "") 70) }]

/-- `IndexTable()`: filters the current sidebar items with `keepEntry`,
joins each survivor with its resolved description, and renders the
two-column table. The sidebar list and the description resolver are
external hooks (`useCurrentSidebarCategory`, `useDocById`), so they are
parameters here. -/
def IndexTable (items : List SidebarEntry)
    (useDocById : Option String → Option String) : Table :=
  let rows : List SidebarRow := (items.filter keepEntry).map
    (fun item => { toSidebarEntry := item, description := useDocById item.docId })
  toTable indexColumns rows
/-! ## Helper lemmas -/

set_option maxRecDepth 40000

/-- Two strings with equal character data are equal. -/
theorem string_eq_of_data (a b : String) (h : a.data = b.data) : a = b := by
  cases a; cases b; cases h; rfl

/-- Character-level description of `truncate`. -/
theorem truncate_data (s : String) (n : Nat) :
    (truncate s n).data =
      if s.data.length > n then s.data.take (n - 1) ++ "...".data else s.data := by
  rw [truncate]
  by_cases h : s.length > n
  · have h2 : s.data.length > n := h
    rw [if_pos h, if_pos h2, String.data_append, String.take_eq]
  · have h2 : ¬ s.data.length > n := h
    rw [if_neg h, if_neg h2]

/-- A successful association-list lookup means the key/value pair is in
the list. -/
theorem lookup_mem {l : List (String × Category)} {k : String} {v : Category}
    (h : l.lookup k = some v) : (k, v) ∈ l := by
  induction l with
  | nil => simp [List.lookup] at h
  | cons p t ih =>
    obtain ⟨k2, v2⟩ := p
    by_cases hk : (k == k2) = true
    · have hkk : k = k2 := eq_of_beq hk
      simp only [List.lookup, hk] at h
      cases h
      simp [hkk]
    · have hk2 : (k == k2) = false := by simpa using hk
      simp only [List.lookup, hk2] at h
      exact List.mem_cons_of_mem _ (ih h)

/-- In a list of items with pairwise-distinct `name` fields, `find?` by a
member's name returns exactly that member. -/
theorem find_name_of_mem {items : List Item} {it : Item} {nm : String}
    (hdist : items.Pairwise (fun a b => a.getStr? "name" ≠ b.getStr? "name"))
    (hmem : it ∈ items) (hnm : it.getStr? "name" = some nm) :
    items.find? (fun i => i.getStr? "name" == some nm) = some it := by
  induction items with
  | nil => cases hmem
  | cons hd tl ih =>
    rcases List.mem_cons.1 hmem with rfl | hmem2
    · simp [List.find?_cons, hnm]
    · have hne : hd.getStr? "name" ≠ some nm := by
        have h1 := (List.pairwise_cons.1 hdist).1 it hmem2
        rw [hnm] at h1
        exact h1
      have hp : (hd.getStr? "name" == some nm) = false := by simpa using hne
      rw [List.find?_cons, hp]
      exact ih (List.pairwise_cons.1 hdist).2 hmem2

/-- Within every category of the registry, item `name` fields are
pairwise distinct (checked by evaluation on the static data). -/
theorem registry_names_pairwise :
    ∀ kc ∈ FEATURE_TABLES,
      kc.2.items.Pairwise (fun a b => a.getStr? "name" ≠ b.getStr? "name") := by
  decide

/-- The body of the rendered sidebar index: one row per surviving entry,
in input order, with the hyperlink and the truncated description. -/
theorem indexTable_body_eq (items : List SidebarEntry)
    (useDocById : Option String → Option String) :
    (IndexTable items useDocById).body =
      (items.filter keepEntry).map (fun item =>
        [Node.anchor item.href (Node.text item.label),
         Node.text (truncate ((useDocById item.docId).getD "") 70)]) := by
  simp [IndexTable, toTable, indexColumns]

/-! ## Claims -/

/-- C1: for every string S, `truncate(S, 70)` returns S unchanged when
`length(S) <= 70`, and when `length(S) > 70` it returns the first 69
characters of S (substring(S, 0, 69)) followed by exactly one truncation
marker appended at the end. -/
theorem truncate_rule (s : String) :
    (s.length ≤ 70 → truncate s 70 = s) ∧
    (s.length > 70 → truncate s 70 = s.take 69 ++ "...") := by
  constructor
  · intro h
    rw [truncate, if_neg (by omega)]
  · intro h
    rw [truncate, if_pos h]

/-- Witness for C1 at concrete inputs of length 70 and 71. -/
theorem truncate_rule_witness :
    truncate (String.mk (List.replicate 70 'a')) 70 = String.mk (List.replicate 70 'a') ∧
    truncate (String.mk (List.replicate 71 'a')) 70 =
      (String.mk (List.replicate 71 'a')).take 69 ++ "..." :=
  ⟨(truncate_rule (String.mk (List.replicate 70 'a'))).1 (by decide),
   (truncate_rule (String.mk (List.replicate 71 'a'))).2 (by decide)⟩

/-- C2 counterexample: on the 71-character input the code appends the
three-character ASCII marker `...`, so the result is not
`"a"*69 ++ "…"` (single-character U+2026 ellipsis) and its length is 72,
not 70. -/
theorem truncate_boundary_counterexample :
    truncate (String.mk (List.replicate 71 'a')) 70 ≠
      String.mk (List.replicate 69 'a') ++ "…" ∧
    (truncate (String.mk (List.replicate 71 'a')) 70).length = 72 :=
  ⟨by decide, by decide⟩

/-- C2 amended: `truncate("a"*70, 70)` is unchanged, and
`truncate("a"*71, 70)` is the first 69 characters followed by the
three-character ASCII marker `...`, giving a 72-character result. -/
theorem truncate_boundary :
    truncate (String.mk (List.replicate 70 'a')) 70 = String.mk (List.replicate 70 'a') ∧
    truncate (String.mk (List.replicate 71 'a')) 70 =
      String.mk (List.replicate 69 'a') ++ "..." :=
  ⟨by decide, by decide⟩

/-- C3: the sidebar index renders exactly the entries whose docId neither
ends with "/index" nor is in the deprecated deny-list, one row each, in
the original input order (a filter, no sorting). -/
theorem IndexTable_filters_and_preserves_order (items : List SidebarEntry)
    (useDocById : Option String → Option String) :
    (IndexTable items useDocById).body =
      (items.filter keepEntry).map (fun item =>
        [Node.anchor item.href (Node.text item.label),
         Node.text (truncate ((useDocById item.docId).getD "") 70)]) :=
  indexTable_body_eq items useDocById

/-- C4: for every category in the registry, `CategoryTable` succeeds with
a table whose header is the ordered column titles, whose body has one row
per item, and whose every row has one cell per column, each cell the
column formatter applied to the row's item in column order. -/
theorem CategoryTable_spec (key : String) (cat : Category)
    (h : FEATURE_TABLES.lookup key = some cat) :
    ∃ t, CategoryTable key = Except.ok t ∧
      t.header = cat.columns.map (fun c => c.title) ∧
      t.body.length = cat.items.length ∧
      (∀ row ∈ t.body, row.length = cat.columns.length) ∧
      t.body = cat.items.map (fun it => cat.columns.map (fun c => c.formatter it)) := by
  refine ⟨toTable cat.columns cat.items, ?_, rfl, ?_, ?_, rfl⟩
  · simp [CategoryTable, h]
  · simp [toTable]
  · intro row hrow
    simp only [toTable, List.mem_map] at hrow
    obtain ⟨it, _, rfl⟩ := hrow
    simp

/-- Witness for C4 on the `llms` category. -/
theorem CategoryTable_spec_witness :
    ∃ t, CategoryTable "llms" = Except.ok t ∧
      t.header = cat_llms.columns.map (fun c => c.title) ∧
      t.body.length = cat_llms.items.length ∧
      (∀ row ∈ t.body, row.length = cat_llms.columns.length) ∧
      t.body = cat_llms.items.map (fun it => cat_llms.columns.map (fun c => c.formatter it)) :=
  CategoryTable_spec "llms" cat_llms rfl

/-- C5: for every registry category and every item in it, `ItemTable`
looked up by that item's name succeeds with a one-row table whose cells
are the column formatters applied to that item, in column order. -/
theorem ItemTable_found (key nm : String) (cat : Category) (it : Item)
    (hcat : FEATURE_TABLES.lookup key = some cat)
    (hmem : it ∈ cat.items) (hnm : it.getStr? "name" = some nm) :
    ItemTable key nm = Except.ok
      { header := cat.columns.map (fun c => c.title),
        body := [cat.columns.map (fun c => c.formatter it)] } := by
  have hdist := registry_names_pairwise (key, cat) (lookup_mem hcat)
  have hfind := find_name_of_mem hdist hmem hnm
  simp [ItemTable, hcat, hfind, toTable]

/-- Witness for C5 on the `social_loaders` category and its first item. -/
theorem ItemTable_found_witness :
    ItemTable "social_loaders" "Twitter" = Except.ok
      { header := cat_social_loaders.columns.map (fun c => c.title),
        body := [cat_social_loaders.columns.map
          (fun c => c.formatter cat_social_loaders.items.headI)] } :=
  ItemTable_found "social_loaders" "Twitter" cat_social_loaders
    cat_social_loaders.items.headI rfl (by decide) (by decide)

/-- C6: for every registry category and every name carried by none of its
items, `ItemTable` fails with the item-not-found error rather than
returning an empty or partial table. -/
theorem ItemTable_absent (key nm : String) (cat : Category)
    (hcat : FEATURE_TABLES.lookup key = some cat)
    (habs : ∀ it ∈ cat.items, it.getStr? "name" ≠ some nm) :
    ItemTable key nm = Except.error (RenderError.ItemNotFound nm key) := by
  have hfind : cat.items.find? (fun i => i.getStr? "name" == some nm) = none := by
    rw [List.find?_eq_none]
    intro it hmem
    simpa using habs it hmem
  simp [ItemTable, hcat, hfind]

/-- Witness for C6: `ItemTable "llms" "nonexistent"` fails. -/
theorem ItemTable_absent_witness :
    ItemTable "llms" "nonexistent" =
      Except.error (RenderError.ItemNotFound "nonexistent" "llms") :=
  ItemTable_absent "llms" "nonexistent" cat_llms rfl (by decide)

/-- C7: for every key absent from the registry, `CategoryTable` fails
with the unknown-category error and produces no output, and `ItemTable`
fails the same way for every item name, before any item lookup. -/
theorem unknown_category_fails (key : String)
    (h : FEATURE_TABLES.lookup key = none) :
    CategoryTable key = Except.error (RenderError.UnknownCategory key) ∧
    ∀ nm, ItemTable key nm = Except.error (RenderError.UnknownCategory key) := by
  refine ⟨?_, fun nm => ?_⟩
  · simp [CategoryTable, h]
  · simp [ItemTable, h]

/-- Witness for C7 at the key "nonexistent". -/
theorem unknown_category_fails_witness :
    CategoryTable "nonexistent" =
      Except.error (RenderError.UnknownCategory "nonexistent") ∧
    ∀ nm, ItemTable "nonexistent" nm =
      Except.error (RenderError.UnknownCategory "nonexistent") :=
  unknown_category_fails "nonexistent" rfl

/-- C8: a surviving sidebar entry whose docId resolves to no description
still renders (no failure), with the empty string as its description
cell. -/
theorem IndexTable_empty_description (items : List SidebarEntry)
    (useDocById : Option String → Option String) (e : SidebarEntry)
    (hmem : e ∈ items) (hkeep : keepEntry e = true)
    (hnone : useDocById e.docId = none) :
    [Node.anchor e.href (Node.text e.label), Node.text ""] ∈
      (IndexTable items useDocById).body := by
  rw [indexTable_body_eq]
  refine List.mem_map.2 ⟨e, List.mem_filter.2 ⟨hmem, hkeep⟩, ?_⟩
  rw [hnone]
  rfl

/-- Witness for C8 on a one-entry sidebar with a resolver that knows no
descriptions. -/
theorem IndexTable_empty_description_witness :
    [Node.anchor "/docs/integrations/chat/foo" (Node.text "Foo"), Node.text ""] ∈
      (IndexTable
        [{ docId := some "integrations/chat/foo",
           href := "/docs/integrations/chat/foo", label := "Foo" }]
        (fun _ => none)).body :=
  IndexTable_empty_description _ _ _ (List.mem_cons_self _ _) (by decide) rfl

/-- C9: in the static registry, every category's item names are pairwise
distinct, so name lookup within a category identifies at most one item. -/
theorem registry_item_names_distinct :
    ∀ kc ∈ FEATURE_TABLES,
      kc.2.items.Pairwise (fun a b => a.getStr? "name" ≠ b.getStr? "name") :=
  registry_names_pairwise

/-- Witness for C9 on the `chat` category. -/
theorem registry_item_names_distinct_witness :
    cat_chat.items.Pairwise (fun a b => a.getStr? "name" ≠ b.getStr? "name") :=
  registry_item_names_distinct ("chat", cat_chat) (List.mem_cons_self _ _)

/-- C10: `truncate` at limit 70 is idempotent: truncating an already
truncated string changes nothing, although a truncated result is itself
72 characters long. -/
theorem truncate_idem (s : String) :
    truncate (truncate s 70) 70 = truncate s 70 := by
  apply string_eq_of_data
  rw [truncate_data, truncate_data]
  by_cases h : s.data.length > 70
  · rw [if_pos h]
    have htk : (s.data.take 69).length = 69 := by
      rw [List.length_take]
      omega
    have hdots : "...".data.length = 3 := rfl
    rw [if_pos (by rw [List.length_append, htk, hdots]; omega)]
    rw [List.take_left' htk]
  · rw [if_neg h, if_neg h]

end FeatureTables
